import Mathlib

/-!
Shallow embedding of the meetingBridge topology-formation and packet-routing
protocol.

The repository carries several iterations of the controller.  The primary
subject here is the v2 `NetworkService` (src/unnamed/part_000, lines 1-453,
appId p2p-translation-tree-v2): it is the variant that implements the full
handshake (CONNECTION_REQ retry loop, CONNECTION_ACK handling, heartbeat and
discovery intervals) that the specification describes.  The older variant in
src/services/NetworkService.ts (appId v1, no CONNECTION_ACK handling) is
embedded separately where a claim cites it, namely its inbound-audio router
`handleAudio` (lines 283-310).  The BRANCH relay logic
`processIncomingNetworkAudio` of the LanguageBranchService
(src/unnamed/part_000, lines 829-856) is embedded as well.

Timers are modelled as explicit state: `heartbeatActive` and
`discoveryActive` are the two interval flags, and `retry` holds the target
and the captured retryCount of the connection-retry interval (`none` when
the interval is cleared).  Sends to the transport are collected in output
lists; local delivery through the `onAudioReceived` consumer callback is
collected in `delivered`.
-/

namespace MeetingBridge

/-- src/types/schema.ts: `NetworkRole`. -/
inductive NetworkRole where
  | ROOT
  | BRANCH
  | LEAF
deriving DecidableEq, Repr

/-- src/types/schema.ts: `AudioPayload` (optional fields omitted: unused by
the routing logic). -/
structure AudioPayload where
  senderId : String
  originLanguage : String
  targetLanguage : String
  audioData : String
  isTranslation : Bool
deriving DecidableEq, Repr

/-- src/unnamed/part_000 lines 13-16: `AnnouncementPayload`. -/
structure AnnouncementPayload where
  role : NetworkRole
  language : String
deriving DecidableEq, Repr

/-- Payload slot of a `NetworkPacket` (part_000 line 10: `payload?: any`);
modelled as the well-typed shapes actually constructed by the code. -/
inductive PacketPayload where
  | none
  | ann (a : AnnouncementPayload)
  | audio (p : AudioPayload)
deriving DecidableEq, Repr

/-- src/unnamed/part_000 lines 7-11: `NetworkPacket`.  The `type` field is a
string, as in the source, so that packets of unknown type are expressible. -/
structure NetworkPacket where
  type : String
  senderId : String
  payload : PacketPayload
deriving DecidableEq, Repr

/-- A transport send: `sendPacket(packet)` is a broadcast,
`sendPacket(packet, targetId)` a unicast. -/
inductive Dest where
  | broadcast
  | to (peerId : String)
deriving DecidableEq, Repr

abbrev Send := NetworkPacket × Dest

/-- src/types/schema.ts: `Peer` (the `me` record of the service). -/
structure Peer where
  id : String
  displayName : String
  role : NetworkRole
  myLanguage : String
  parentId : Option String
  childrenIds : List String
  isMicLocked : Bool
deriving DecidableEq, Repr

/-- The mutable state of the v2 NetworkService (src/unnamed/part_000 lines
24-41): `me`, `potentialParents` (a JS Map, modelled as an association list
in insertion order), `rootPeerId`, and the three timers. -/
structure NetState where
  me : Peer
  rootPeerId : Option String
  potentialParents : List (String × AnnouncementPayload)
  heartbeatActive : Bool
  discoveryActive : Bool
  retry : Option (String × Nat)
deriving DecidableEq, Repr

/-- Result of running one handler: the new state, the packets handed to the
transport, and the payloads handed to the local `onAudioReceived` consumer. -/
structure StepResult where
  state : NetState
  sends : List Send
  delivered : List AudioPayload
deriving DecidableEq, Repr

/-- JS `Map.set` semantics: overwrite in place if the key exists (keeping
its insertion position), otherwise append. -/
def mapSet (k : String) (v : AnnouncementPayload) :
    List (String × AnnouncementPayload) → List (String × AnnouncementPayload)
  | [] => [(k, v)]
  | (k1, v1) :: rest =>
      if k1 = k then (k, v) :: rest else (k1, v1) :: mapSet k v rest

namespace NetworkService

/-- part_000 lines 449-452: `getMyId`, with `this.me.id || 'unknown-self'`
(the empty string is falsy). -/
def getMyId (s : NetState) : String :=
  if s.me.id = "" then "unknown-self" else s.me.id

/-- The ANNOUNCE packet built by `broadcastAnnouncement` (part_000 lines
138-155). -/
def announcePacket (s : NetState) : NetworkPacket :=
  { type := "ANNOUNCE", senderId := getMyId s,
    payload := .ann { role := s.me.role, language := s.me.myLanguage } }

/-- part_000 lines 138-155: `broadcastAnnouncement` broadcasts the current
role and language; no state change. -/
def broadcastAnnouncement (s : NetState) : List Send :=
  [(announcePacket s, Dest.broadcast)]

/-- part_000 lines 161-177: `startDiscoveryPhase` clears the parent, clears
the whole candidate table, and (re)starts the discovery interval. -/
def startDiscoveryPhase (s : NetState) : NetState :=
  { s with
    me := { s.me with parentId := none }
    potentialParents := []
    discoveryActive := true }

/-- The CONNECTION_REQ packet built by `sendReq` inside `attemptConnection`
(part_000 lines 226-231). -/
def connectionReqPacket (s : NetState) : NetworkPacket :=
  { type := "CONNECTION_REQ", senderId := getMyId s,
    payload := .ann { role := s.me.role, language := s.me.myLanguage } }

/-- part_000 lines 206-242: `attemptConnection` clears any previous retry
interval, runs `sendReq` once synchronously (with retryCount 0), then
installs the retry interval.  If the target is already the parent the first
`sendReq` sends nothing; otherwise it sends one CONNECTION_REQ and bumps
retryCount to 1. -/
def attemptConnection (s : NetState) (targetId : String) : StepResult :=
  if s.me.parentId = some targetId then
    { state := { s with retry := some (targetId, 0) }, sends := [], delivered := [] }
  else
    { state := { s with retry := some (targetId, 1) },
      sends := [(connectionReqPacket s, Dest.to targetId)], delivered := [] }

/-- One firing of the retry interval (`sendReq`, part_000 lines 213-237):
stop on success (parent equals target), fall back to rediscovery after 10
attempts, otherwise resend the CONNECTION_REQ. -/
def retryTick (s : NetState) : StepResult :=
  match s.retry with
  | Option.none => { state := s, sends := [], delivered := [] }
  | some (t, rc) =>
    if s.me.parentId = some t then
      { state := { s with retry := none }, sends := [], delivered := [] }
    else if 10 ≤ rc then
      { state := startDiscoveryPhase { s with retry := none }, sends := [], delivered := [] }
    else
      { state := { s with retry := some (t, rc + 1) },
        sends := [(connectionReqPacket s, Dest.to t)], delivered := [] }

/-- part_000 lines 183-192: first entry of the candidate table whose
announcement is a BRANCH in the local language (JS Map iteration order =
insertion order). -/
def findBranchTarget (s : NetState) : Option String :=
  (s.potentialParents.find? fun kv =>
    decide (kv.2.role = NetworkRole.BRANCH ∧ kv.2.language = s.me.myLanguage)).map Prod.fst

/-- part_000 lines 183-204: `evaluatePotentialParents` picks a matching
BRANCH candidate, else the known root; when a target exists it calls
`attemptConnection` and stops the discovery interval. -/
def evaluatePotentialParents (s : NetState) : StepResult :=
  let targetId := match findBranchTarget s with
                  | some t => some t
                  | Option.none => s.rootPeerId
  match targetId with
  | some t =>
      let r := attemptConnection s t
      { r with state := { r.state with discoveryActive := false } }
  | Option.none => { state := s, sends := [], delivered := [] }

/-- One firing of the discovery interval (part_000 lines 169-176): if a
parent is already set, stop discovering; otherwise evaluate candidates. -/
def discoveryTick (s : NetState) : StepResult :=
  if s.discoveryActive then
    match s.me.parentId with
    | some _ => { state := { s with discoveryActive := false }, sends := [], delivered := [] }
    | Option.none => evaluatePotentialParents s
  else { state := s, sends := [], delivered := [] }

/-- One firing of the heartbeat interval (part_000 lines 124-132): ROOT and
BRANCH rebroadcast their announcement. -/
def heartbeatTick (s : NetState) : StepResult :=
  if s.heartbeatActive ∧ (s.me.role = NetworkRole.ROOT ∨ s.me.role = NetworkRole.BRANCH) then
    { state := s, sends := broadcastAnnouncement s, delivered := [] }
  else { state := s, sends := [], delivered := [] }

/-- part_000 lines 275-280: `handleAnnouncement` records the announcement in
the candidate table and notes the sender as root when it announces ROOT. -/
def handleAnnouncement (s : NetState) (peerId : String)
    (payload : AnnouncementPayload) : NetState :=
  let s1 := { s with potentialParents := mapSet peerId payload s.potentialParents }
  if payload.role = NetworkRole.ROOT then { s1 with rootPeerId := some peerId } else s1

/-- The CONNECTION_ACK packet built by `handleConnectionReq` (part_000 lines
302-305). -/
def connectionAckPacket (s : NetState) : NetworkPacket :=
  { type := "CONNECTION_ACK", senderId := getMyId s, payload := .none }

/-- part_000 lines 286-308: `handleConnectionReq`.  A LEAF returns without
acting; otherwise the requester is added to `childrenIds` if absent and a
CONNECTION_ACK is always sent back. -/
def handleConnectionReq (s : NetState) (childPeerId : String)
    (_payload : AnnouncementPayload) : StepResult :=
  if s.me.role = NetworkRole.LEAF then
    { state := s, sends := [], delivered := [] }
  else
    let s1 := if childPeerId ∈ s.me.childrenIds then s
              else { s with me := { s.me with childrenIds := s.me.childrenIds ++ [childPeerId] } }
    { state := s1, sends := [(connectionAckPacket s1, Dest.to childPeerId)], delivered := [] }

/-- part_000 lines 314-331: `handleConnectionAck`.  If the sender is already
the parent, return (idempotent).  Otherwise set the parent, clear the retry
and discovery intervals, and - when the sender is the known root and the
local role is not ROOT - promote to BRANCH and start the heartbeat. -/
def handleConnectionAck (s : NetState) (parentId : String) : StepResult :=
  if s.me.parentId = some parentId then
    { state := s, sends := [], delivered := [] }
  else
    let s1 := { s with
                me := { s.me with parentId := some parentId }
                retry := none
                discoveryActive := false }
    let s2 := if s1.rootPeerId = some parentId ∧ s1.me.role ≠ NetworkRole.ROOT then
                { s1 with
                  me := { s1.me with role := NetworkRole.BRANCH }
                  heartbeatActive := true }
              else s1
    { state := s2, sends := [], delivered := [] }

/-- part_000 lines 333-353: `handlePeerDisconnect`.  Parent loss restarts
discovery (which also clears the candidate table), a departed child is
filtered out of `childrenIds`, a departed root clears `rootPeerId`, and the
entry of the departed peer is deleted from the candidate table. -/
def handlePeerDisconnect (s : NetState) (peerId : String) : NetState :=
  let s1 := if s.me.parentId = some peerId then startDiscoveryPhase s else s
  let s2 := if peerId ∈ s1.me.childrenIds then
              { s1 with me := { s1.me with childrenIds := s1.me.childrenIds.filter (· ≠ peerId) } }
            else s1
  let s3 := if s2.rootPeerId = some peerId then { s2 with rootPeerId := none } else s2
  { s3 with potentialParents := s3.potentialParents.filter fun kv => kv.1 ≠ peerId }

/-- The AUDIO packet rebuilt by `handleAudio` (part_000 line 402): the wire
senderId is the declared `payload.senderId`, not the transport sender. -/
def audioPacketOf (payload : AudioPayload) : NetworkPacket :=
  { type := "AUDIO", senderId := payload.senderId, payload := .audio payload }

/-- part_000 lines 397-419: v2 `handleAudio`.  Local playback first, then:
a BRANCH forwards upward to its parent when the transport sender is a
child; a ROOT fans out to every child except the transport sender; the
downward BRANCH path is delegated to the LanguageBranchService. -/
def handleAudio (s : NetState) (senderId : String) (payload : AudioPayload) : StepResult :=
  let pkt := audioPacketOf payload
  let sends :=
    match s.me.role, s.me.parentId with
    | NetworkRole.BRANCH, some p =>
        if senderId ∈ s.me.childrenIds then [(pkt, Dest.to p)] else []
    | NetworkRole.ROOT, _ =>
        (s.me.childrenIds.filter fun c => c ≠ senderId).map fun c => (pkt, Dest.to c)
    | _, _ => []
  { state := s, sends := sends, delivered := [payload] }

/-- part_000 lines 252-273: the packet dispatcher.  Before the switch it
initializes an unset local id to the placeholder string (lines 254-257);
unknown packet types fall through the switch. -/
def handlePacket (s : NetState) (pkt : NetworkPacket) (senderPeerId : String) : StepResult :=
  let s1 := if s.me.id = "" then { s with me := { s.me with id := "self" } } else s
  match pkt.type, pkt.payload with
  | "ANNOUNCE", PacketPayload.ann a =>
      { state := handleAnnouncement s1 senderPeerId a, sends := [], delivered := [] }
  | "CONNECTION_REQ", PacketPayload.ann a => handleConnectionReq s1 senderPeerId a
  | "CONNECTION_ACK", _ => handleConnectionAck s1 senderPeerId
  | "AUDIO", PacketPayload.audio p => handleAudio s1 senderPeerId p
  | _, _ => { state := s1, sends := [], delivered := [] }

/-- part_000 lines 359-386: v2 `broadcastAudio` (payload origination).  An
isolated LEAF returns early; a LEAF unicasts to its parent; a BRANCH sends
to its parent (if any) and to every child; a ROOT sends to every child. -/
def broadcastAudio (s : NetState) (payload : AudioPayload) : List Send :=
  if s.me.role = NetworkRole.LEAF ∧ s.me.parentId = none then []
  else
    let pkt : NetworkPacket :=
      { type := "AUDIO", senderId := getMyId s, payload := .audio payload }
    match s.me.role, s.me.parentId with
    | NetworkRole.LEAF, some p => [(pkt, Dest.to p)]
    | NetworkRole.LEAF, Option.none => []
    | NetworkRole.BRANCH, some p =>
        (pkt, Dest.to p) :: (s.me.childrenIds.map fun c => (pkt, Dest.to c))
    | NetworkRole.BRANCH, Option.none => s.me.childrenIds.map fun c => (pkt, Dest.to c)
    | NetworkRole.ROOT, _ => s.me.childrenIds.map fun c => (pkt, Dest.to c)

/-- The default `me` record (part_000 lines 24-32) together with empty
topology state and no running timers: the state of a fresh instance. -/
def initialState : NetState :=
  { me := { id := "", displayName := "Anonymous", role := NetworkRole.LEAF,
            myLanguage := "en-US", parentId := none, childrenIds := [],
            isMicLocked := false },
    rootPeerId := none, potentialParents := [],
    heartbeatActive := false, discoveryActive := false, retry := none }

/-- part_000 lines 61-108: `connect` resets the `me` record (ROOT when
forceRoot, else LEAF), then starts the heartbeat (ROOT) or the discovery
phase (non-root). -/
def connect (s : NetState) (displayName language : String) (forceRoot : Bool) : NetState :=
  let me := { s.me with
              displayName := displayName
              myLanguage := language
              childrenIds := []
              parentId := none
              role := if forceRoot then NetworkRole.ROOT else NetworkRole.LEAF }
  let s1 := { s with me := me }
  if forceRoot then { s1 with heartbeatActive := true } else startDiscoveryPhase s1

/-- part_000 lines 110-118: `leave` stops all three timers. -/
def leave (s : NetState) : NetState :=
  { s with heartbeatActive := false, discoveryActive := false, retry := none }

/-- The events that drive the v2 controller: inbound packets, peer
lifecycle notifications, and the three timers. -/
inductive Event where
  | packet (pkt : NetworkPacket) (fromPeer : String)
  | peerJoin (p : String)
  | peerLeave (p : String)
  | discoveryTick
  | retryTick
  | heartbeatTick
  | leave
deriving DecidableEq, Repr

/-- One transition of the controller (part_000: the packet listener, the
onPeerJoin and onPeerLeave callbacks, and the three interval callbacks). -/
def step (s : NetState) (e : Event) : StepResult :=
  match e with
  | Event.packet pkt fromPeer => handlePacket s pkt fromPeer
  | Event.peerJoin _ => { state := s, sends := broadcastAnnouncement s, delivered := [] }
  | Event.peerLeave p => { state := handlePeerDisconnect s p, sends := [], delivered := [] }
  | Event.discoveryTick => discoveryTick s
  | Event.retryTick => retryTick s
  | Event.heartbeatTick => heartbeatTick s
  | Event.leave => { state := leave s, sends := [], delivered := [] }

/-- Run a list of events from a state, keeping only the final state. -/
def runEvents (s : NetState) : List Event → NetState
  | [] => s
  | e :: rest => runEvents (step s e).state rest

/-- States of a session: a `connect` call on a fresh instance followed by
any sequence of events. -/
inductive Reachable : NetState → Prop
  | connected (displayName language : String) (forceRoot : Bool) :
      Reachable (connect initialState displayName language forceRoot)
  | step (s : NetState) (e : Event) : Reachable s → Reachable (step s e).state

theorem reachable_runEvents (s : NetState) (hs : Reachable s) :
    ∀ es : List Event, Reachable (runEvents s es) := by
  intro es
  induction es generalizing s with
  | nil => exact hs
  | cons e rest ih => exact ih _ (Reachable.step s e hs)

end NetworkService

namespace NetworkServiceV1

/-- src/services/NetworkService.ts lines 283-310: v1 `handleAudio`.  Local
playback first, then: a BRANCH forwards upward to its parent when the
transport sender is a child, and downward to all children when the
transport sender is the parent; a ROOT fans out to every child except the
transport sender; a LEAF forwards nothing. -/
def handleAudio (s : NetState) (senderId : String) (payload : AudioPayload) : StepResult :=
  let pkt := NetworkService.audioPacketOf payload
  let sends :=
    match s.me.role, s.me.parentId with
    | NetworkRole.BRANCH, some p =>
        if senderId ∈ s.me.childrenIds then [(pkt, Dest.to p)]
        else if senderId = p then s.me.childrenIds.map (fun c => (pkt, Dest.to c))
        else []
    | NetworkRole.BRANCH, Option.none => []
    | NetworkRole.ROOT, _ =>
        (s.me.childrenIds.filter fun c => c ≠ senderId).map fun c => (pkt, Dest.to c)
    | NetworkRole.LEAF, _ => []
  { state := s, sends := sends, delivered := [payload] }

end NetworkServiceV1

namespace LanguageBranchService

/-- The visible effects of `processIncomingNetworkAudio`: a passthrough to
the children, or a submission to the translation session. -/
inductive BranchAction where
  | forwardToChildren (p : AudioPayload)
  | translate (p : AudioPayload)
deriving DecidableEq, Repr

/-- src/unnamed/part_000 lines 829-856: `processIncomingNetworkAudio`.
Only a BRANCH acts; a payload whose declared senderId equals the local id
(or the placeholder string) is ignored; a payload already in the local
language is passed through to the children; otherwise it is sent to the
translation session when one exists. -/
def processIncomingNetworkAudio (s : NetState) (myLanguage : String)
    (sessionActive : Bool) (payload : AudioPayload) : List BranchAction :=
  if s.me.role ≠ NetworkRole.BRANCH then []
  else if payload.senderId = s.me.id ∨ payload.senderId = "self" then []
  else if payload.targetLanguage = myLanguage then [BranchAction.forwardToChildren payload]
  else if sessionActive then [BranchAction.translate payload]
  else []

end LanguageBranchService

end MeetingBridge

open MeetingBridge
open MeetingBridge.NetworkService

/-- Claim C1: in every local state in which the controller has sent a
CONNECTION_REQ to a target T and is awaiting acknowledgment (the retry
interval runs towards T with at least one request out, and T is not yet the
parent), processing a CONNECTION_ACK from T results in parentId = T with
the connection-retry timer stopped, and processing a second CONNECTION_ACK
from T afterwards changes no local state and sends nothing. -/
theorem C1_connection_ack_confirms_and_is_idempotent
    (s : NetState) (T : String) (n : Nat)
    (hretry : s.retry = some (T, n)) (hsent : 1 ≤ n)
    (hawait : s.me.parentId ≠ some T) :
    (handleConnectionAck s T).state.me.parentId = some T ∧
    (handleConnectionAck s T).state.retry = none ∧
    handleConnectionAck (handleConnectionAck s T).state T =
      { state := (handleConnectionAck s T).state, sends := [], delivered := [] } := by
  have h1 : (handleConnectionAck s T).state.me.parentId = some T := by
    unfold handleConnectionAck
    rw [if_neg hawait]
    dsimp only
    split <;> rfl
  have h2 : (handleConnectionAck s T).state.retry = none := by
    unfold handleConnectionAck
    rw [if_neg hawait]
    dsimp only
    split <;> rfl
  refine ⟨h1, h2, ?_⟩
  generalize hX : (handleConnectionAck s T).state = X at h1
  unfold handleConnectionAck
  rw [if_pos h1]

/-- Witness for C1 at a concrete state that is retrying towards "T". -/
def c1State : NetState :=
  { me := { id := "self", displayName := "a", role := NetworkRole.LEAF,
            myLanguage := "en", parentId := none, childrenIds := [],
            isMicLocked := false },
    rootPeerId := none, potentialParents := [],
    heartbeatActive := false, discoveryActive := false, retry := some ("T", 1) }

theorem C1_witness :
    (handleConnectionAck c1State "T").state.me.parentId = some "T" ∧
    (handleConnectionAck c1State "T").state.retry = none :=
  ⟨(C1_connection_ack_confirms_and_is_idempotent c1State "T" 1 rfl (by decide) (by decide)).1,
   (C1_connection_ack_confirms_and_is_idempotent c1State "T" 1 rfl (by decide) (by decide)).2.1⟩

/-- Sequential processing of CONNECTION_REQ packets from the same requester
`c`, one per payload in the list, collecting the replies. -/
def applyConnectionReqs (c : String) : List AnnouncementPayload → NetState → NetState × List Send
  | [], s => (s, [])
  | a :: rest, s =>
      let r := handleConnectionReq s c a
      let rec1 := applyConnectionReqs c rest r.state
      (rec1.1, r.sends ++ rec1.2)

theorem handleConnectionReq_mem (s : NetState) (c : String) (a : AnnouncementPayload)
    (h : s.me.role ≠ NetworkRole.LEAF) (hm : c ∈ s.me.childrenIds) :
    handleConnectionReq s c a =
      { state := s, sends := [(connectionAckPacket s, Dest.to c)], delivered := [] } := by
  unfold handleConnectionReq
  rw [if_neg h]
  dsimp only
  rw [if_pos hm]

theorem handleConnectionReq_notMem (s : NetState) (c : String) (a : AnnouncementPayload)
    (h : s.me.role ≠ NetworkRole.LEAF) (hm : c ∉ s.me.childrenIds) :
    handleConnectionReq s c a =
      { state := { s with me := { s.me with childrenIds := s.me.childrenIds ++ [c] } },
        sends := [(connectionAckPacket s, Dest.to c)], delivered := [] } := by
  unfold handleConnectionReq
  rw [if_neg h]
  dsimp only
  rw [if_neg hm]
  rfl

theorem applyConnectionReqs_mem (c : String) (pls : List AnnouncementPayload) :
    ∀ s : NetState, s.me.role ≠ NetworkRole.LEAF → c ∈ s.me.childrenIds →
    applyConnectionReqs c pls s =
      (s, List.replicate pls.length (connectionAckPacket s, Dest.to c)) := by
  induction pls with
  | nil => intro s _ _; rfl
  | cons a rest ih =>
      intro s h hm
      unfold applyConnectionReqs
      rw [handleConnectionReq_mem s c a h hm]
      dsimp only
      rw [ih s h hm]
      simp [List.replicate_succ]

/-- Claim C2: at a peer whose role is BRANCH or ROOT, processing any
nonempty sequence of CONNECTION_REQ packets from the same requester id `c`
(starting from a state in which `c` occurs at most once in childrenIds,
e.g. a duplicate-free one) leaves `c` occurring exactly once in
childrenIds, and a CONNECTION_ACK is sent back to `c` on every single
request, duplicates included. -/
theorem C2_duplicate_connection_req_idempotent_and_acked
    (s : NetState) (c : String) (pls : List AnnouncementPayload)
    (hrole : s.me.role = NetworkRole.BRANCH ∨ s.me.role = NetworkRole.ROOT)
    (hcount : s.me.childrenIds.count c ≤ 1) (hne : pls ≠ []) :
    (applyConnectionReqs c pls s).1.me.childrenIds.count c = 1 ∧
    (applyConnectionReqs c pls s).2 =
      List.replicate pls.length (connectionAckPacket s, Dest.to c) := by
  have hleaf : s.me.role ≠ NetworkRole.LEAF := by
    rcases hrole with h | h <;> simp [h]
  cases pls with
  | nil => exact absurd rfl hne
  | cons a rest =>
      by_cases hm : c ∈ s.me.childrenIds
      · have hc1 : s.me.childrenIds.count c = 1 := by
          have hpos : 0 < s.me.childrenIds.count c := List.count_pos_iff.mpr hm
          omega
        unfold applyConnectionReqs
        rw [handleConnectionReq_mem s c a hleaf hm]
        dsimp only
        rw [applyConnectionReqs_mem c rest s hleaf hm]
        simp [List.replicate_succ, hc1]
      · have hc0 : s.me.childrenIds.count c = 0 := List.count_eq_zero.mpr hm
        unfold applyConnectionReqs
        rw [handleConnectionReq_notMem s c a hleaf hm]
        dsimp only
        have hm1 : c ∈ s.me.childrenIds ++ [c] := by simp
        have hleaf1 :
            ({ s with me := { s.me with childrenIds := s.me.childrenIds ++ [c] } } :
              NetState).me.role ≠ NetworkRole.LEAF := hleaf
        rw [applyConnectionReqs_mem c rest _ hleaf1 hm1]
        constructor
        · simp [List.count_append, hc0]
        · simp [List.replicate_succ, connectionAckPacket, getMyId]

/-- Witness for C2 at a concrete ROOT state and two duplicate requests. -/
def c2State : NetState :=
  { me := { id := "root1", displayName := "r", role := NetworkRole.ROOT,
            myLanguage := "en", parentId := none, childrenIds := [],
            isMicLocked := false },
    rootPeerId := none, potentialParents := [],
    heartbeatActive := true, discoveryActive := false, retry := none }

theorem C2_witness :
    (applyConnectionReqs "c" [{ role := NetworkRole.LEAF, language := "en" },
        { role := NetworkRole.LEAF, language := "en" }] c2State).1.me.childrenIds.count "c" = 1 ∧
    (applyConnectionReqs "c" [{ role := NetworkRole.LEAF, language := "en" },
        { role := NetworkRole.LEAF, language := "en" }] c2State).2 =
      List.replicate 2 (connectionAckPacket c2State, Dest.to "c") :=
  C2_duplicate_connection_req_idempotent_and_acked c2State "c" _
    (Or.inr rfl) (by decide) (by decide)

/-- The C3 invariant: a LEAF has an empty children set. -/
def LeafNoChildren (s : NetState) : Prop :=
  s.me.role = NetworkRole.LEAF → s.me.childrenIds = []

theorem handleConnectionReq_role (s : NetState) (c : String) (a : AnnouncementPayload) :
    (handleConnectionReq s c a).state.me.role = s.me.role := by
  unfold handleConnectionReq
  split
  · rfl
  · dsimp only; split <;> rfl

theorem handleConnectionReq_leafInv (s : NetState) (c : String) (a : AnnouncementPayload)
    (h : LeafNoChildren s) : LeafNoChildren (handleConnectionReq s c a).state := by
  intro hrole
  rw [handleConnectionReq_role] at hrole
  unfold handleConnectionReq
  rw [if_pos hrole]
  exact h hrole

theorem handleConnectionAck_children (s : NetState) (p : String) :
    (handleConnectionAck s p).state.me.childrenIds = s.me.childrenIds := by
  unfold handleConnectionAck
  split
  · rfl
  · dsimp only; split <;> rfl

theorem handleConnectionAck_leaf_role (s : NetState) (p : String)
    (h : (handleConnectionAck s p).state.me.role = NetworkRole.LEAF) :
    s.me.role = NetworkRole.LEAF := by
  unfold handleConnectionAck at h
  split at h
  · exact h
  · dsimp only at h
    split at h
    · exact absurd h (by simp)
    · exact h

theorem handleConnectionAck_leafInv (s : NetState) (p : String)
    (h : LeafNoChildren s) : LeafNoChildren (handleConnectionAck s p).state := by
  intro hrole
  rw [handleConnectionAck_children]
  exact h (handleConnectionAck_leaf_role s p hrole)

theorem handleAnnouncement_me (s : NetState) (p : String) (a : AnnouncementPayload) :
    (handleAnnouncement s p a).me = s.me := by
  unfold handleAnnouncement
  split <;> rfl

theorem startDiscoveryPhase_role_children (s : NetState) :
    (startDiscoveryPhase s).me.role = s.me.role ∧
    (startDiscoveryPhase s).me.childrenIds = s.me.childrenIds :=
  ⟨rfl, rfl⟩

theorem handlePeerDisconnect_leafInv (s : NetState) (p : String)
    (h : LeafNoChildren s) : LeafNoChildren (handlePeerDisconnect s p) := by
  intro hrole
  unfold handlePeerDisconnect at hrole ⊢
  have hrole1 : s.me.role = NetworkRole.LEAF := by
    dsimp only at hrole
    split at hrole <;> split at hrole <;> split at hrole <;> simp_all [startDiscoveryPhase]
  have hnil : s.me.childrenIds = [] := h hrole1
  dsimp only
  split <;> split <;> split <;> simp_all [startDiscoveryPhase]

theorem attemptConnection_me (s : NetState) (t : String) :
    (attemptConnection s t).state.me = s.me := by
  unfold attemptConnection
  split <;> rfl

theorem evaluatePotentialParents_me (s : NetState) :
    (evaluatePotentialParents s).state.me = s.me := by
  unfold evaluatePotentialParents
  dsimp only
  split
  · rw [show ∀ r : StepResult, ({ r with state := { r.state with discoveryActive := false } } :
        StepResult).state.me = r.state.me from fun r => rfl]
    exact attemptConnection_me s _
  · rfl

theorem retryTick_leafInv (s : NetState) (h : LeafNoChildren s) :
    LeafNoChildren (retryTick s).state := by
  unfold retryTick
  split
  · exact h
  · split
    · exact h
    · split
      · exact h
      · exact h

theorem discoveryTick_leafInv (s : NetState) (h : LeafNoChildren s) :
    LeafNoChildren (NetworkService.discoveryTick s).state := by
  unfold NetworkService.discoveryTick
  split
  · split
    · exact h
    · intro hr
      rw [evaluatePotentialParents_me] at hr ⊢
      exact h hr
  · exact h

theorem heartbeatTick_leafInv (s : NetState) (h : LeafNoChildren s) :
    LeafNoChildren (NetworkService.heartbeatTick s).state := by
  unfold NetworkService.heartbeatTick
  split
  · exact h
  · exact h

theorem handlePacket_leafInv (s : NetState) (pkt : NetworkPacket) (fp : String)
    (h : LeafNoChildren s) : LeafNoChildren (handlePacket s pkt fp).state := by
  unfold handlePacket
  have h1 : LeafNoChildren
      (if s.me.id = "" then { s with me := { s.me with id := "self" } } else s) := by
    split
    · exact h
    · exact h
  dsimp only
  split
  · intro hr
    rw [handleAnnouncement_me] at hr ⊢
    exact h1 hr
  · exact handleConnectionReq_leafInv _ fp _ h1
  · exact handleConnectionAck_leafInv _ fp h1
  · exact h1
  · exact h1

theorem step_leafInv (s : NetState) (e : Event) (h : LeafNoChildren s) :
    LeafNoChildren (step s e).state := by
  cases e with
  | packet pkt fp => exact handlePacket_leafInv s pkt fp h
  | peerJoin p => exact h
  | peerLeave p => exact handlePeerDisconnect_leafInv s p h
  | discoveryTick => exact discoveryTick_leafInv s h
  | retryTick => exact retryTick_leafInv s h
  | heartbeatTick => exact heartbeatTick_leafInv s h
  | leave => exact h

/-- Claim C3: a LEAF processing an inbound CONNECTION_REQ changes no local
state and sends no reply, and in every reachable state of the controller a
peer whose role is LEAF has empty childrenIds. -/
theorem C3_leaf_never_acquires_children :
    (∀ (s : NetState) (c : String) (a : AnnouncementPayload),
        s.me.role = NetworkRole.LEAF →
        handleConnectionReq s c a = { state := s, sends := [], delivered := [] }) ∧
    (∀ s : NetState, Reachable s → s.me.role = NetworkRole.LEAF →
        s.me.childrenIds = []) := by
  constructor
  · intro s c a hL
    unfold handleConnectionReq
    rw [if_pos hL]
  · intro s hs
    induction hs with
    | connected dn lang fr =>
        intro _
        unfold connect startDiscoveryPhase
        dsimp only
        split <;> rfl
    | step s e _ ih => exact step_leafInv s e ih

/-- Witness for C3 at the state right after a non-root connect. -/
theorem C3_witness :
    handleConnectionReq (connect initialState "n" "en" false) "c"
        { role := NetworkRole.LEAF, language := "en" } =
      { state := connect initialState "n" "en" false, sends := [], delivered := [] } ∧
    (connect initialState "n" "en" false).me.childrenIds = [] :=
  ⟨C3_leaf_never_acquires_children.1 _ "c" _ rfl,
   C3_leaf_never_acquires_children.2 _ (Reachable.connected "n" "en" false) rfl⟩

/-- Claim C4: when no matching-language BRANCH candidate exists and the
root is known, the discovery evaluation targets the root and sends the
CONNECTION_REQ without touching the local role or the heartbeat; the
promotion to BRANCH together with the heartbeat start happens only when
the CONNECTION_ACK from that target is processed. -/
theorem C4_branch_promotion_only_on_ack
    (s : NetState) (R : String)
    (hnb : findBranchTarget s = none) (hroot : s.rootPeerId = some R)
    (hnr : s.me.role ≠ NetworkRole.ROOT) (hnp : s.me.parentId ≠ some R) :
    (evaluatePotentialParents s).state.me.role = s.me.role ∧
    (evaluatePotentialParents s).state.heartbeatActive = s.heartbeatActive ∧
    (evaluatePotentialParents s).sends = [(connectionReqPacket s, Dest.to R)] ∧
    (handleConnectionAck (evaluatePotentialParents s).state R).state.me.role =
      NetworkRole.BRANCH ∧
    (handleConnectionAck (evaluatePotentialParents s).state R).state.heartbeatActive = true ∧
    (handleConnectionAck (evaluatePotentialParents s).state R).state.me.parentId = some R := by
  have heval : evaluatePotentialParents s =
      { state := { s with retry := some (R, 1), discoveryActive := false },
        sends := [(connectionReqPacket s, Dest.to R)], delivered := [] } := by
    unfold evaluatePotentialParents attemptConnection
    rw [hnb]
    dsimp only
    rw [hroot]
    dsimp only
    rw [if_neg hnp]
  have hack : handleConnectionAck
      ({ s with retry := some (R, 1), discoveryActive := false } : NetState) R =
      { state := { s with
                   me := { s.me with parentId := some R, role := NetworkRole.BRANCH }
                   retry := none
                   discoveryActive := false
                   heartbeatActive := true },
        sends := [], delivered := [] } := by
    unfold handleConnectionAck
    rw [if_neg hnp]
    dsimp only
    rw [if_pos (show _ ∧ _ from ⟨hroot, hnr⟩)]
  rw [heval]
  dsimp only
  rw [hack]
  exact ⟨rfl, rfl, rfl, rfl, rfl, rfl⟩

/-- Witness for C4 at a concrete LEAF state that only knows the root. -/
def c4State : NetState :=
  { me := { id := "self", displayName := "b", role := NetworkRole.LEAF,
            myLanguage := "en", parentId := none, childrenIds := [],
            isMicLocked := false },
    rootPeerId := some "R", potentialParents := [],
    heartbeatActive := false, discoveryActive := true, retry := none }

theorem C4_witness :
    (evaluatePotentialParents c4State).state.me.role = NetworkRole.LEAF ∧
    (handleConnectionAck (evaluatePotentialParents c4State).state "R").state.me.role =
      NetworkRole.BRANCH ∧
    (handleConnectionAck (evaluatePotentialParents c4State).state "R").state.heartbeatActive =
      true :=
  ⟨(C4_branch_promotion_only_on_ack c4State "R" rfl rfl (by decide) (by decide)).1,
   (C4_branch_promotion_only_on_ack c4State "R" rfl rfl (by decide) (by decide)).2.2.2.1,
   (C4_branch_promotion_only_on_ack c4State "R" rfl rfl (by decide) (by decide)).2.2.2.2.1⟩

/-- Claim C5: inbound AUDIO forwarding of the v1 router
(src/services/NetworkService.ts lines 283-310), in a state whose parent is
not among the children (the tree-shape of the data model): a LEAF forwards
nothing; a ROOT forwards to every child except the transport sender; a
BRANCH forwards to the parent exactly when the packet arrived from a
child, to all children exactly when it arrived from the parent, and never
back to the peer it arrived from. -/
theorem C5_inbound_audio_forwarding_by_role
    (s : NetState) (senderId : String) (payload : AudioPayload) :
    (s.me.role = NetworkRole.LEAF →
      (NetworkServiceV1.handleAudio s senderId payload).sends = []) ∧
    (s.me.role = NetworkRole.ROOT →
      (NetworkServiceV1.handleAudio s senderId payload).sends =
        (s.me.childrenIds.filter (fun c => c ≠ senderId)).map
          (fun c => (audioPacketOf payload, Dest.to c))) ∧
    (∀ p : String, s.me.role = NetworkRole.BRANCH → s.me.parentId = some p →
        p ∉ s.me.childrenIds →
      ((senderId ∈ s.me.childrenIds →
          (NetworkServiceV1.handleAudio s senderId payload).sends =
            [(audioPacketOf payload, Dest.to p)]) ∧
       (senderId = p →
          (NetworkServiceV1.handleAudio s senderId payload).sends =
            s.me.childrenIds.map (fun c => (audioPacketOf payload, Dest.to c))) ∧
       (senderId ∉ s.me.childrenIds → senderId ≠ p →
          (NetworkServiceV1.handleAudio s senderId payload).sends = []))) ∧
    (s.me.role = NetworkRole.BRANCH → s.me.parentId = none →
      (NetworkServiceV1.handleAudio s senderId payload).sends = []) ∧
    ((s.me.role = NetworkRole.BRANCH → ∀ p, s.me.parentId = some p →
        p ∉ s.me.childrenIds) →
      ∀ x ∈ (NetworkServiceV1.handleAudio s senderId payload).sends,
        x.2 ≠ Dest.to senderId) := by
  refine ⟨?_, ?_, ?_, ?_, ?_⟩
  · intro h
    unfold NetworkServiceV1.handleAudio
    dsimp only
    split <;> simp_all
  · intro h
    unfold NetworkServiceV1.handleAudio
    dsimp only
    split <;> simp_all
  · intro p hb hp hpc
    unfold NetworkServiceV1.handleAudio
    dsimp only
    refine ⟨?_, ?_, ?_⟩
    · intro hmem
      split <;> simp_all
    · intro hsp
      split <;> simp_all
    · intro hnm hnp
      split <;> simp_all
  · intro hb hp
    unfold NetworkServiceV1.handleAudio
    dsimp only
    split <;> simp_all
  · intro htree x hx
    unfold NetworkServiceV1.handleAudio at hx
    dsimp only at hx
    split at hx
    · rename_i p hrole hpar
      have hpc := htree hrole p hpar
      split at hx
      · rename_i hmem
        simp only [List.mem_singleton] at hx
        subst hx
        simp only [ne_eq, Dest.to.injEq]
        intro hps
        exact hpc (hps ▸ hmem)
      · split at hx
        · rename_i hsp
          simp only [List.mem_map] at hx
          obtain ⟨c, hc, hxc⟩ := hx
          subst hxc
          simp only [ne_eq, Dest.to.injEq]
          intro hcs
          exact hpc (by rw [← hsp, ← hcs]; exact hc)
        · simp at hx
    · simp at hx
    · simp only [List.mem_map, List.mem_filter] at hx
      obtain ⟨c, ⟨hc, hcs⟩, hxc⟩ := hx
      subst hxc
      simp only [ne_eq, Dest.to.injEq]
      intro h
      simp_all
    · simp at hx

/-- Witness for C5 at a concrete BRANCH with parent "P" and children A, B,
processing audio that arrived from child A. -/
def c5State : NetState :=
  { me := { id := "b1", displayName := "b", role := NetworkRole.BRANCH,
            myLanguage := "en", parentId := some "P", childrenIds := ["A", "B"],
            isMicLocked := false },
    rootPeerId := some "P", potentialParents := [],
    heartbeatActive := true, discoveryActive := false, retry := none }

def c5Payload : AudioPayload :=
  { senderId := "A", originLanguage := "en", targetLanguage := "en",
    audioData := "xx", isTranslation := false }

theorem C5_witness :
    (NetworkServiceV1.handleAudio c5State "A" c5Payload).sends =
      [(audioPacketOf c5Payload, Dest.to "P")] :=
  ((C5_inbound_audio_forwarding_by_role c5State "A" c5Payload).2.2.1 "P" rfl rfl
    (by decide)).1 (by decide)

/-- Concrete ROOT state and a payload whose declared sender is that ROOT
itself, used to exhibit the missing loopback discard. -/
def c6State : NetState :=
  { me := { id := "R1", displayName := "r", role := NetworkRole.ROOT,
            myLanguage := "en", parentId := none, childrenIds := ["A", "B"],
            isMicLocked := false },
    rootPeerId := none, potentialParents := [],
    heartbeatActive := true, discoveryActive := false, retry := none }

def c6Payload : AudioPayload :=
  { senderId := "R1", originLanguage := "en", targetLanguage := "en",
    audioData := "xx", isTranslation := false }

/-- Counterexample to claim C6: at a ROOT with id R1 and children A and B,
an inbound AUDIO packet whose declared sender id equals the local id is
still delivered to the local consumer callback and still forwarded to
child B - the router has no declared-sender loopback check (its source
exclusion keys on the transport sender only). -/
theorem C6_counterexample :
    c6Payload.senderId = c6State.me.id ∧
    (NetworkServiceV1.handleAudio c6State "A" c6Payload).delivered = [c6Payload] ∧
    (NetworkServiceV1.handleAudio c6State "A" c6Payload).sends =
      [(audioPacketOf c6Payload, Dest.to "B")] := by
  refine ⟨rfl, rfl, ?_⟩
  decide

/-- Claim C6 amended: loopback protection exists only on the BRANCH relay
path: `processIncomingNetworkAudio` ignores a payload whose declared sender
id equals the local peer id, producing neither a passthrough to the
children nor a translation request; the role-based router still delivers
and forwards such a packet. -/
theorem C6_branch_relay_loopback_discard
    (s : NetState) (lang : String) (session : Bool) (payload : AudioPayload)
    (h : payload.senderId = s.me.id) :
    LanguageBranchService.processIncomingNetworkAudio s lang session payload = [] := by
  unfold LanguageBranchService.processIncomingNetworkAudio
  split
  · rfl
  · rw [if_pos (Or.inl h)]

/-- Witness for the amended C6 at a concrete BRANCH state. -/
def c6BState : NetState :=
  { me := { id := "b2", displayName := "b", role := NetworkRole.BRANCH,
            myLanguage := "en", parentId := some "R1", childrenIds := ["L1"],
            isMicLocked := false },
    rootPeerId := some "R1", potentialParents := [],
    heartbeatActive := true, discoveryActive := false, retry := none }

def c6BPayload : AudioPayload :=
  { senderId := "b2", originLanguage := "en", targetLanguage := "en",
    audioData := "yy", isTranslation := false }

theorem C6_witness :
    LanguageBranchService.processIncomingNetworkAudio c6BState "en" true c6BPayload = [] :=
  C6_branch_relay_loopback_discard c6BState "en" true c6BPayload rfl

/-- The AUDIO packet built by `broadcastAudio` (part_000 lines 368-372). -/
def audioOriginPacket (s : NetState) (payload : AudioPayload) : NetworkPacket :=
  { type := "AUDIO", senderId := getMyId s, payload := .audio payload }

/-- Claim C7: origination routing of v2 `broadcastAudio`: an isolated LEAF
sends to no one (and the function is total, so no error is raised); a LEAF
with a parent unicasts to the parent only; a BRANCH unicasts to its parent
(if any) and to every child; a ROOT sends to every child. -/
theorem C7_outbound_audio_routing_by_role (s : NetState) (payload : AudioPayload) :
    (s.me.role = NetworkRole.LEAF → s.me.parentId = none →
      broadcastAudio s payload = []) ∧
    (∀ p, s.me.role = NetworkRole.LEAF → s.me.parentId = some p →
      broadcastAudio s payload = [(audioOriginPacket s payload, Dest.to p)]) ∧
    (∀ p, s.me.role = NetworkRole.BRANCH → s.me.parentId = some p →
      broadcastAudio s payload =
        (audioOriginPacket s payload, Dest.to p) ::
          s.me.childrenIds.map (fun c => (audioOriginPacket s payload, Dest.to c))) ∧
    (s.me.role = NetworkRole.BRANCH → s.me.parentId = none →
      broadcastAudio s payload =
        s.me.childrenIds.map (fun c => (audioOriginPacket s payload, Dest.to c))) ∧
    (s.me.role = NetworkRole.ROOT →
      broadcastAudio s payload =
        s.me.childrenIds.map (fun c => (audioOriginPacket s payload, Dest.to c))) := by
  refine ⟨?_, ?_, ?_, ?_, ?_⟩
  · intro h1 h2
    unfold broadcastAudio
    rw [if_pos ⟨h1, h2⟩]
  · intro p h1 h2
    unfold broadcastAudio
    rw [if_neg (by simp [h2])]
    dsimp only
    split <;> simp_all [audioOriginPacket]
  · intro p h1 h2
    unfold broadcastAudio
    rw [if_neg (by simp [h1])]
    dsimp only
    split <;> simp_all [audioOriginPacket]
  · intro h1 h2
    unfold broadcastAudio
    rw [if_neg (by simp [h1])]
    dsimp only
    split <;> simp_all [audioOriginPacket]
  · intro h1
    unfold broadcastAudio
    rw [if_neg (by simp [h1])]
    dsimp only
    split <;> simp_all [audioOriginPacket]

/-- Witness for C7 at a concrete BRANCH with a parent and one child, and at
an isolated LEAF. -/
def c7Leaf : NetState :=
  { me := { id := "l1", displayName := "l", role := NetworkRole.LEAF,
            myLanguage := "en", parentId := none, childrenIds := [],
            isMicLocked := false },
    rootPeerId := none, potentialParents := [],
    heartbeatActive := false, discoveryActive := true, retry := none }

theorem C7_witness :
    broadcastAudio c5State c5Payload =
      (audioOriginPacket c5State c5Payload, Dest.to "P") ::
        [(audioOriginPacket c5State c5Payload, Dest.to "A"),
         (audioOriginPacket c5State c5Payload, Dest.to "B")] ∧
    broadcastAudio c7Leaf c5Payload = [] :=
  ⟨(C7_outbound_audio_routing_by_role c5State c5Payload).2.2.1 "P" rfl rfl,
   (C7_outbound_audio_routing_by_role c7Leaf c5Payload).1 rfl rfl⟩

/-- Claim C8 amended: the departure handler changes exactly the
relationships involving the departing peer, except that when the departing
peer was the parent the discovery restart clears the entire candidate
table, not only the departing entry: children are filtered of p; parentId
is cleared and discovery restarted iff parentId = p (and in that case the
candidate table becomes empty); otherwise only the entry of p is deleted
from the candidate table; rootPeerId is cleared iff it equals p; every
other field of the local state is unchanged. -/
theorem C8_peer_disconnect_frame (s : NetState) (p : String) :
    (handlePeerDisconnect s p).me.childrenIds = s.me.childrenIds.filter (· ≠ p) ∧
    (s.me.parentId = some p →
      (handlePeerDisconnect s p).me.parentId = none ∧
      (handlePeerDisconnect s p).discoveryActive = true ∧
      (handlePeerDisconnect s p).potentialParents = []) ∧
    (s.me.parentId ≠ some p →
      (handlePeerDisconnect s p).me.parentId = s.me.parentId ∧
      (handlePeerDisconnect s p).discoveryActive = s.discoveryActive ∧
      (handlePeerDisconnect s p).potentialParents =
        s.potentialParents.filter (fun kv => kv.1 ≠ p)) ∧
    (handlePeerDisconnect s p).rootPeerId =
      (if s.rootPeerId = some p then none else s.rootPeerId) ∧
    (handlePeerDisconnect s p).me.id = s.me.id ∧
    (handlePeerDisconnect s p).me.displayName = s.me.displayName ∧
    (handlePeerDisconnect s p).me.role = s.me.role ∧
    (handlePeerDisconnect s p).me.myLanguage = s.me.myLanguage ∧
    (handlePeerDisconnect s p).me.isMicLocked = s.me.isMicLocked ∧
    (handlePeerDisconnect s p).heartbeatActive = s.heartbeatActive ∧
    (handlePeerDisconnect s p).retry = s.retry := by
  have hfilter : p ∉ s.me.childrenIds →
      s.me.childrenIds.filter (fun c => c ≠ p) = s.me.childrenIds := by
    intro hm
    apply List.filter_eq_self.mpr
    intro a ha
    simp only [ne_eq, decide_eq_true_eq]
    rintro rfl
    exact hm ha
  unfold handlePeerDisconnect startDiscoveryPhase
  dsimp only
  by_cases hpar : s.me.parentId = some p <;>
    by_cases hmem : p ∈ s.me.childrenIds <;>
      by_cases hroot : s.rootPeerId = some p <;>
        simp_all <;>
          exact (List.filter_eq_self.mpr (by intro a ha; simpa using hfilter a ha)).symm

/-- A reachable state whose parent is "P" while the candidate table still
holds an announcement from the unrelated peer "Q": reached by connecting
as non-root, recording an ANNOUNCE from Q, and processing a
CONNECTION_ACK from P. -/
def annLeafQ : AnnouncementPayload := { role := NetworkRole.LEAF, language := "sv" }

def c8Events : List Event :=
  [Event.packet { type := "ANNOUNCE", senderId := "Q", payload := .ann annLeafQ } "Q",
   Event.packet { type := "CONNECTION_ACK", senderId := "P", payload := .none } "P"]

def c8State : NetState := runEvents (connect initialState "n" "en" false) c8Events

/-- Counterexample to claim C8: when the departing peer "P" is the parent,
the departure handler does not only delete the entry of "P" from the
candidate table - the discovery restart clears the whole table, wiping the
entry of the unrelated peer "Q" as well, so state other than the
relationships involving "P" changes. -/
theorem C8_counterexample :
    Reachable c8State ∧
    c8State.me.parentId = some "P" ∧
    c8State.potentialParents = [("Q", annLeafQ)] ∧
    (handlePeerDisconnect c8State "P").potentialParents = [] ∧
    (handlePeerDisconnect c8State "P").potentialParents ≠
      c8State.potentialParents.filter (fun kv => kv.1 ≠ "P") := by
  refine ⟨reachable_runEvents _ (Reachable.connected "n" "en" false) c8Events, ?_, ?_, ?_, ?_⟩
    <;> decide

/-- Witness for the amended C8 at the same concrete state. -/
theorem C8_witness :
    (handlePeerDisconnect c8State "P").me.parentId = none ∧
    (handlePeerDisconnect c8State "P").potentialParents = [] ∧
    (handlePeerDisconnect c8State "P").retry = c8State.retry :=
  ⟨((C8_peer_disconnect_frame c8State "P").2.1 (by decide)).1,
   ((C8_peer_disconnect_frame c8State "P").2.1 (by decide)).2.2,
   (C8_peer_disconnect_frame c8State "P").2.2.2.2.2.2.2.2.2.2⟩

/-- Claim C9 amended: the only guard in `handleConnectionAck` is the
parent-idempotence check: an ACK from the current parent is a no-op, but
an ACK from any other peer - whether or not it is the pursued target - is
accepted: the sender becomes the parent and the retry and discovery
timers stop. -/
theorem C9_ack_guard_is_parent_check_only (s : NetState) (P : String) :
    (s.me.parentId = some P →
      handleConnectionAck s P = { state := s, sends := [], delivered := [] }) ∧
    (s.me.parentId ≠ some P →
      (handleConnectionAck s P).state.me.parentId = some P ∧
      (handleConnectionAck s P).state.retry = none ∧
      (handleConnectionAck s P).state.discoveryActive = false) := by
  constructor
  · intro h
    unfold handleConnectionAck
    rw [if_pos h]
  · intro h
    unfold handleConnectionAck
    rw [if_neg h]
    dsimp only
    refine ⟨?_, ?_, ?_⟩ <;> (split <;> rfl)

/-- A reachable state that is pursuing target "T1" (one CONNECTION_REQ
already sent, retry running), with no parent: reached by connecting as
non-root, recording a matching BRANCH announcement from "T1", and firing
one discovery tick. -/
def annBranchT1 : AnnouncementPayload := { role := NetworkRole.BRANCH, language := "en" }

def c9Events : List Event :=
  [Event.packet { type := "ANNOUNCE", senderId := "T1", payload := .ann annBranchT1 } "T1",
   Event.discoveryTick]

def c9State : NetState := runEvents (connect initialState "n" "en" false) c9Events

/-- Counterexample to claim C9: in a state pursuing "T1" (not "P2"), a
CONNECTION_ACK arriving from "P2" is not resolved as a no-op: the handler
accepts it and sets parentId to "P2", changing local state. -/
theorem C9_counterexample :
    Reachable c9State ∧
    c9State.retry = some ("T1", 1) ∧
    c9State.me.parentId = none ∧
    (handleConnectionAck c9State "P2").state.me.parentId = some "P2" ∧
    (handleConnectionAck c9State "P2").state ≠ c9State := by
  refine ⟨reachable_runEvents _ (Reachable.connected "n" "en" false) c9Events, ?_, ?_, ?_, ?_⟩
    <;> decide

/-- Witness for the amended C9 at the same concrete state. -/
theorem C9_witness :
    (handleConnectionAck c9State "P2").state.me.parentId = some "P2" ∧
    (handleConnectionAck c9State "P2").state.retry = none :=
  ⟨((C9_ack_guard_is_parent_check_only c9State "P2").2 (by decide)).1,
   ((C9_ack_guard_is_parent_check_only c9State "P2").2 (by decide)).2.1⟩

/-- Claim C10 amended: a packet whose type is none of the four known ones
is not dispatched to any handler and nothing is sent; all local state is
unchanged except that an unset local id is first initialized to the
placeholder string - an initialization the dispatcher performs for every
inbound packet. -/
theorem C10_unknown_packet_dispatch (s : NetState) (pkt : NetworkPacket) (sp : String)
    (h1 : pkt.type ≠ "ANNOUNCE") (h2 : pkt.type ≠ "CONNECTION_REQ")
    (h3 : pkt.type ≠ "CONNECTION_ACK") (h4 : pkt.type ≠ "AUDIO") :
    handlePacket s pkt sp =
      { state := if s.me.id = "" then { s with me := { s.me with id := "self" } } else s,
        sends := [], delivered := [] } ∧
    (s.me.id ≠ "" → handlePacket s pkt sp = { state := s, sends := [], delivered := [] }) := by
  have hmain : handlePacket s pkt sp =
      { state := if s.me.id = "" then { s with me := { s.me with id := "self" } } else s,
        sends := [], delivered := [] } := by
    unfold handlePacket
    dsimp only
    split <;> simp_all
  refine ⟨hmain, ?_⟩
  intro hid
  rw [hmain, if_neg hid]

/-- The state right after a non-root connect still has the empty id. -/
def c10State : NetState := connect initialState "n" "en" false

def fooPacket : NetworkPacket := { type := "FOO", senderId := "x", payload := .none }

/-- Counterexample to claim C10: in the reachable post-connect state the
local id is still unset, and processing a packet of unknown type "FOO"
changes local state: the dispatcher initializes the id to the placeholder
before switching on the type. -/
theorem C10_counterexample :
    Reachable c10State ∧
    c10State.me.id = "" ∧
    (handlePacket c10State fooPacket "px").state.me.id = "self" ∧
    (handlePacket c10State fooPacket "px").state ≠ c10State := by
  refine ⟨Reachable.connected "n" "en" false, ?_, ?_, ?_⟩ <;> decide

/-- Witness for the amended C10 at a concrete state with a set id. -/
theorem C10_witness :
    handlePacket c2State fooPacket "px" =
      { state := c2State, sends := [], delivered := [] } :=
  (C10_unknown_packet_dispatch c2State fooPacket "px" (by decide) (by decide) (by decide)
    (by decide)).2 (by decide)
